import Mathlib

/-!
Verification of the resumind repository (capability facade over the Puter
platform, plus the submission pipeline and the persisted-record read paths).

The facade (`usePuterStore` in the source) is embedded as pure Lean
functions: every asynchronous operation becomes a function from the
platform environment (`Option Puter`, `none` meaning `getPuter()` returned
null) and the current store state to the new store state and the
operation's settled outcome.  A settled outcome is
`Except JSError α`: `Except.ok` is a fulfilled promise, `Except.error` a
rejected one (an exception raised to the caller of the facade operation).
`JSError` is `Option String`: `some m` models a thrown `Error` whose
`.message` is `m`, `none` models a thrown non-`Error` value, matching the
source's `err instanceof Error ? err.message : fallback` recovery.
-/

/-- A thrown JavaScript value: `some m` is an `Error` with message `m`,
`none` is any non-`Error` thrown value. -/
abbrev JSError := Option String

/-- `err instanceof Error ? err.message : fallback`. -/
def errorMessage (e : JSError) (fallback : String) : String :=
  e.getD fallback

/-- Identity payload returned by `puter.auth.getUser()`. -/
structure PuterUser where
  uuid : String
  username : String
deriving DecidableEq, Repr

/-- One entry of `puter.kv.list(pattern, true)`. -/
structure KVItem where
  key : String
  value : String
deriving DecidableEq, Repr

/-- A file handle returned by the blob-store calls (`puter.fs`). -/
structure FSItem where
  path : String
  name : String
deriving DecidableEq, Repr

/-- One part of a chat message's `content` array, as built by the
source's `feedback`: `{type:'file', puter_path}` or `{type:'text', text}`. -/
inductive ChatContentPart where
  | file (puterPath : String)
  | text (content : String)
deriving DecidableEq, Repr

/-- A chat message `{role, content}`. -/
structure ChatMessage where
  role : String
  content : List ChatContentPart
deriving DecidableEq, Repr

/-- Options object accepted by `puter.ai.chat` (`{model: ...}`). -/
structure PuterChatOptions where
  model : Option String
deriving DecidableEq, Repr

/-- The argument tuple of one `puter.ai.chat` invocation:
`chat(prompt, imageURL?, testMode?, options?)`, where the second
argument may be either an image URL or the options object. -/
structure ChatArgs where
  prompt : Sum String (List ChatMessage)
  imageURL : Option (Sum String PuterChatOptions)
  testMode : Option Bool
  options : Option PuterChatOptions
deriving DecidableEq, Repr

/-- One part of an inference response's content sequence. -/
structure AIMessagePart where
  text : String
deriving DecidableEq, Repr

/-- An inference response; its content is either a plain string or a
sequence whose first element carries the text. -/
structure AIResponse where
  content : Sum String (List AIMessagePart)
deriving DecidableEq, Repr

/-- The structured feedback payload stored on a Record (opaque here). -/
structure Feedback where
  raw : String
deriving DecidableEq, Repr

/-- The persisted Record for one submission, with the field names used by
the source read paths (`data.resumePath`, `data.imagePath`,
`data.feedback`, `resume.id`). -/
structure Resume where
  id : String
  companyName : String
  jobTitle : String
  jobDescription : String
  resumePath : String
  imagePath : String
  feedback : Option Feedback
deriving DecidableEq, Repr

/-- Facade-owned session/auth state (`auth.user`,
`auth.isAuthenticated` in the store; the function-valued members of the
source's `auth` object are behaviour, not state, and are not part of the
state record). -/
structure AuthState where
  user : Option PuterUser
  isAuthenticated : Bool
deriving DecidableEq, Repr

/-- The mutable global store managed by `usePuterStore`. -/
structure StoreState where
  isLoading : Bool
  error : Option String
  puterReady : Bool
  auth : AuthState
deriving DecidableEq, Repr

/-- The store's initial value from the source's return object:
`isLoading: true, error: null, puterReady: false, auth` signed out. -/
def initialState : StoreState :=
  { isLoading := true, error := none, puterReady := false,
    auth := { user := none, isAuthenticated := false } }

/-- The source's `setError`: records the message, clears the in-flight
flag and resets the session to signed-out (it re-installs the auth
methods unchanged, so only `user`/`isAuthenticated` change). -/
def setError (s : StoreState) (msg : String) : StoreState :=
  { s with
    error := some msg
    isLoading := false
    auth := { user := none, isAuthenticated := false } }

/-- The source's `clearError`: `set({ error: null })`. -/
def clearError (s : StoreState) : StoreState :=
  { s with error := none }

/-- The message recorded whenever `getPuter()` returns null. -/
def puterUnavailableMsg : String := "Puter.js not available"

/-- The underlying platform handle `window.puter`.  Each field is the
settled outcome the platform would deliver for the corresponding call
(functions of the call's arguments where the source passes arguments
through). -/
structure Puter where
  authGetUser : Except JSError PuterUser
  authIsSignedIn : Except JSError Bool
  authSignIn : Except JSError Unit
  authSignOut : Except JSError Unit
  fsWrite : String → String → Except JSError (Option FSItem)
  fsRead : String → Except JSError (Option String)
  fsUpload : List String → Except JSError (Option FSItem)
  fsDelete : String → Except JSError (Option Unit)
  fsReaddir : String → Except JSError (Option (List FSItem))
  aiChat : ChatArgs → Except JSError (Option AIResponse)
  aiImg2txt : String → Option Bool → Except JSError (Option String)
  kvGet : String → Except JSError (Option String)
  kvSet : String → String → Except JSError (Option Bool)
  kvDelete : String → Except JSError (Option Bool)
  kvList : String → Bool → Except JSError (Option (List KVItem))
  kvFlush : Except JSError (Option Bool)

/-- `checkAuthStatus`: full body is inside `try/catch`, so it always
returns a boolean and never raises.  Platform absent: `setError` and
`false`.  Otherwise it first sets `{isLoading: true, error: null}`, then
branches on `puter.auth.isSignedIn()`; the signed-in branch fetches
`puter.auth.getUser()`. -/
def checkAuthStatus (env : Option Puter) (s : StoreState) :
    StoreState × Bool :=
  match env with
  | none => (setError s puterUnavailableMsg, false)
  | some puter =>
    let s1 := { s with isLoading := true, error := none }
    match puter.authIsSignedIn with
    | Except.error e =>
      (setError s1 (errorMessage e "Failed to check auth status"), false)
    | Except.ok true =>
      match puter.authGetUser with
      | Except.error e =>
        (setError s1 (errorMessage e "Failed to check auth status"), false)
      | Except.ok u =>
        ({ s1 with
           auth := { user := some u, isAuthenticated := true }
           isLoading := false }, true)
    | Except.ok false =>
      ({ s1 with
         auth := { user := none, isAuthenticated := false }
         isLoading := false }, false)

/-- `signIn`: platform check, `{isLoading: true, error: null}`, then
`await puter.auth.signIn()` inside `try/catch`; on fulfilment it runs
`checkAuthStatus()` (whose state result is what remains). -/
def signIn (env : Option Puter) (s : StoreState) : StoreState :=
  match env with
  | none => setError s puterUnavailableMsg
  | some puter =>
    let s1 := { s with isLoading := true, error := none }
    match puter.authSignIn with
    | Except.error e => setError s1 (errorMessage e "Sign in failed")
    | Except.ok _ => (checkAuthStatus env s1).1

/-- `signOut`: platform check, `{isLoading: true, error: null}`, then
`await puter.auth.signOut()` inside `try/catch`; on fulfilment it clears
the local auth state, on rejection `setError` runs (which also clears
it). -/
def signOut (env : Option Puter) (s : StoreState) : StoreState :=
  match env with
  | none => setError s puterUnavailableMsg
  | some puter =>
    let s1 := { s with isLoading := true, error := none }
    match puter.authSignOut with
    | Except.error e => setError s1 (errorMessage e "Sign out failed")
    | Except.ok _ =>
      { s1 with
        auth := { user := none, isAuthenticated := false }
        isLoading := false }

/-- `refreshUser`: platform check, `{isLoading: true, error: null}`,
then `await puter.auth.getUser()` inside `try/catch`. -/
def refreshUser (env : Option Puter) (s : StoreState) : StoreState :=
  match env with
  | none => setError s puterUnavailableMsg
  | some puter =>
    let s1 := { s with isLoading := true, error := none }
    match puter.authGetUser with
    | Except.error e => setError s1 (errorMessage e "Failed to refresh user")
    | Except.ok u =>
      { s1 with
        auth := { user := some u, isAuthenticated := true }
        isLoading := false }

/-- `fs.write`: platform check, then `return puter.fs.write(path, data)`
with no `try/catch` — the platform outcome (fulfilment or rejection) is
forwarded to the caller unchanged and the store is not touched. -/
def write (env : Option Puter) (s : StoreState) (path data : String) :
    StoreState × Except JSError (Option FSItem) :=
  match env with
  | none => (setError s puterUnavailableMsg, Except.ok none)
  | some puter => (s, puter.fsWrite path data)

/-- `readDir` (exposed as `fs.readDir`): platform check, then
`return puter.fs.readdir(path)` with no `try/catch`. -/
def readDir (env : Option Puter) (s : StoreState) (path : String) :
    StoreState × Except JSError (Option (List FSItem)) :=
  match env with
  | none => (setError s puterUnavailableMsg, Except.ok none)
  | some puter => (s, puter.fsReaddir path)

/-- `readFile` (exposed as `fs.read`): platform check, then
`return puter.fs.read(path)` with no `try/catch`. -/
def readFile (env : Option Puter) (s : StoreState) (path : String) :
    StoreState × Except JSError (Option String) :=
  match env with
  | none => (setError s puterUnavailableMsg, Except.ok none)
  | some puter => (s, puter.fsRead path)

/-- `upload` (exposed as `fs.upload`): platform check, then
`return puter.fs.upload(files)` with no `try/catch`. -/
def upload (env : Option Puter) (s : StoreState) (files : List String) :
    StoreState × Except JSError (Option FSItem) :=
  match env with
  | none => (setError s puterUnavailableMsg, Except.ok none)
  | some puter => (s, puter.fsUpload files)

/-- `deleteFile` (exposed as `fs.delete`): platform check, then
`return puter.fs.delete(path)` with no `try/catch`. -/
def deleteFile (env : Option Puter) (s : StoreState) (path : String) :
    StoreState × Except JSError (Option Unit) :=
  match env with
  | none => (setError s puterUnavailableMsg, Except.ok none)
  | some puter => (s, puter.fsDelete path)

/-- `chat` (exposed as `ai.chat`): platform check, then
`return puter.ai.chat(prompt, imageURL, testMode, options)` with no
`try/catch`. -/
def chat (env : Option Puter) (s : StoreState)
    (prompt : Sum String (List ChatMessage))
    (imageURL : Option (Sum String PuterChatOptions))
    (testMode : Option Bool) (options : Option PuterChatOptions) :
    StoreState × Except JSError (Option AIResponse) :=
  match env with
  | none => (setError s puterUnavailableMsg, Except.ok none)
  | some puter => (s, puter.aiChat ⟨prompt, imageURL, testMode, options⟩)

/-- The single chat request the source's `feedback` builds: one user
message whose content combines a file reference and the instruction
text, with the options object `{model: 'claude-3-7-sonnet'}` passed in
the second argument position. -/
def feedbackArgs (path message : String) : ChatArgs :=
  { prompt := Sum.inr
      [{ role := "user",
         content := [ChatContentPart.file path,
                     ChatContentPart.text message] }],
    imageURL := some (Sum.inr { model := some "claude-3-7-sonnet" }),
    testMode := none,
    options := none }

/-- `feedback` (exposed as `ai.feedback`): platform check, then a single
`puter.ai.chat` call on `feedbackArgs path message`, forwarded with no
`try/catch`.  The third component is the list of chat invocations the
operation performed, in order. -/
def feedback (env : Option Puter) (s : StoreState) (path message : String) :
    StoreState × Except JSError (Option AIResponse) × List ChatArgs :=
  match env with
  | none => (setError s puterUnavailableMsg, Except.ok none, [])
  | some puter =>
    (s, puter.aiChat (feedbackArgs path message), [feedbackArgs path message])

/-- `img2txt` (exposed as `ai.img2txt`): platform check, then
`return puter.ai.img2txt(image, testMode)` with no `try/catch`. -/
def img2txt (env : Option Puter) (s : StoreState) (image : String)
    (testMode : Option Bool) : StoreState × Except JSError (Option String) :=
  match env with
  | none => (setError s puterUnavailableMsg, Except.ok none)
  | some puter => (s, puter.aiImg2txt image testMode)

/-- `getKV` (exposed as `kv.get`): platform check, then
`return puter.kv.get(key)` with no `try/catch`. -/
def getKV (env : Option Puter) (s : StoreState) (key : String) :
    StoreState × Except JSError (Option String) :=
  match env with
  | none => (setError s puterUnavailableMsg, Except.ok none)
  | some puter => (s, puter.kvGet key)

/-- `setKV` (exposed as `kv.set`): platform check, then
`return puter.kv.set(key, value)` with no `try/catch`. -/
def setKV (env : Option Puter) (s : StoreState) (key value : String) :
    StoreState × Except JSError (Option Bool) :=
  match env with
  | none => (setError s puterUnavailableMsg, Except.ok none)
  | some puter => (s, puter.kvSet key value)

/-- `deleteKV` (exposed as `kv.delete`): platform check, then
`return puter.kv.delete(key)` with no `try/catch`. -/
def deleteKV (env : Option Puter) (s : StoreState) (key : String) :
    StoreState × Except JSError (Option Bool) :=
  match env with
  | none => (setError s puterUnavailableMsg, Except.ok none)
  | some puter => (s, puter.kvDelete key)

/-- `listKV` (exposed as `kv.list`): platform check, defaulting of the
`returnValues` flag to `false` when it was not passed, then
`return puter.kv.list(pattern, returnValues)` with no `try/catch`. -/
def listKV (env : Option Puter) (s : StoreState) (pattern : String)
    (returnValues : Option Bool) :
    StoreState × Except JSError (Option (List KVItem)) :=
  match env with
  | none => (setError s puterUnavailableMsg, Except.ok none)
  | some puter =>
    let rv := match returnValues with
      | none => false
      | some b => b
    (s, puter.kvList pattern rv)

/-- `flushKV` (exposed as `kv.flush`): platform check, then
`return puter.kv.flush()` with no `try/catch`. -/
def flushKV (env : Option Puter) (s : StoreState) :
    StoreState × Except JSError (Option Bool) :=
  match env with
  | none => (setError s puterUnavailableMsg, Except.ok none)
  | some puter => (s, puter.kvFlush)

/-!
Readiness handshake (`init` in the source).  The timed behaviour is
modelled over discrete milliseconds: `avail t` says whether
`window.puter` exists at time `t`.  If the handle exists at time 0,
`init` returns immediately and creates neither the interval nor the
timeout.  Otherwise `setInterval` fires at 100, 200, ..., 10000 ms and
`setTimeout` fires at 10000 ms; both timers are due at 10000 ms, and the
interval was registered first, so its 100th callback runs before the
timeout callback.  The timeout callback does `clearInterval` and calls
`setError` only when the handle is still absent at that moment. -/

/-- Observable outcome of the handshake: whether `puterReady` was set,
how many times the timeout branch invoked `setError`, whether the
interval is still registered, and the times at which an interval
callback actually ran. -/
structure HandshakeResult where
  ready : Bool
  errorCount : Nat
  intervalActive : Bool
  polls : List Nat
deriving DecidableEq, Repr

/-- One interval callback at time `t`: it runs only while the interval
is registered; if `getPuter()` is non-null it clears the interval and
sets the ready flag (then triggers the auth check, not modelled here). -/
def pollStep (avail : Nat → Bool) (h : HandshakeResult) (t : Nat) :
    HandshakeResult :=
  if h.intervalActive then
    if avail t then
      { h with intervalActive := false, ready := true, polls := h.polls ++ [t] }
    else
      { h with polls := h.polls ++ [t] }
  else h

/-- The times at which the 100 ms interval is due within the 10 s
window: 100, 200, ..., 10000. -/
def pollTimes : List Nat := (List.range 100).map (fun k => 100 * (k + 1))

/-- The timeout callback at 10000 ms: `clearInterval(interval)`, then
`setError` exactly when `getPuter()` is still null. -/
def timeoutStep (avail : Nat → Bool) (h : HandshakeResult) :
    HandshakeResult :=
  let h1 := { h with intervalActive := false }
  if avail 10000 then h1 else { h1 with errorCount := h1.errorCount + 1 }

/-- The whole `init` handshake: immediate success at time 0, or the
interval callbacks in order followed by the timeout callback. -/
def runHandshake (avail : Nat → Bool) : HandshakeResult :=
  if avail 0 then
    { ready := true, errorCount := 0, intervalActive := false, polls := [] }
  else
    timeoutStep avail (pollTimes.foldl (pollStep avail)
      { ready := false, errorCount := 0, intervalActive := true, polls := [] })

/-!
Read paths of the persisted records. `JSON.parse` is the external JSON
deserializer; it is passed in as `jsonParse`, with `Except.error`
modelling the exception it throws on malformed input.
-/

/-- The key under which the Resume route reads one record:
the template literal `resume:${id}` from `kv.get` in `loadResume`. -/
def resumeKey (id : String) : String := "resume:" ++ id

/-- The pattern under which the home route lists all records:
the literal `'resume:*'` passed to `kv.list` in `loadResumes`. -/
def resumeListPattern : String := "resume:*"

/-- `resumes.map((resume) => JSON.parse(resume.value))` with JavaScript
exception semantics: the map runs left to right and the first value on
which `JSON.parse` throws aborts the whole map, discarding every parsed
element. -/
def parseAll (jsonParse : String → Except JSError Resume) :
    List KVItem → Except JSError (List Resume)
  | [] => Except.ok []
  | it :: rest =>
    match jsonParse it.value with
    | Except.error e => Except.error e
    | Except.ok r =>
      match parseAll jsonParse rest with
      | Except.error e => Except.error e
      | Except.ok rs => Except.ok (r :: rs)

/-- `loadResume` from the Resume route: `kv.get('resume:' + id)`; an
empty or missing value returns early; otherwise `JSON.parse`, then two
`fs.read` calls on the record's `resumePath` and `imagePath`, either of
which returning `undefined` also returns early.  The second component is
the loaded record once everything succeeded; the third lists the
key-value keys the route queried. -/
def loadResume (env : Option Puter) (s : StoreState) (id : String)
    (jsonParse : String → Except JSError Resume) :
    (StoreState × Except JSError (Option Resume)) × List String :=
  let queried := [resumeKey id]
  match getKV env s (resumeKey id) with
  | (s1, Except.error e) => ((s1, Except.error e), queried)
  | (s1, Except.ok none) => ((s1, Except.ok none), queried)
  | (s1, Except.ok (some str)) =>
    if str = "" then ((s1, Except.ok none), queried)
    else
      match jsonParse str with
      | Except.error e => ((s1, Except.error e), queried)
      | Except.ok data =>
        match readFile env s1 data.resumePath with
        | (s2, Except.error e) => ((s2, Except.error e), queried)
        | (s2, Except.ok none) => ((s2, Except.ok none), queried)
        | (s2, Except.ok (some _)) =>
          match readFile env s2 data.imagePath with
          | (s3, Except.error e) => ((s3, Except.error e), queried)
          | (s3, Except.ok none) => ((s3, Except.ok none), queried)
          | (s3, Except.ok (some _)) => ((s3, Except.ok (some data)), queried)

/-- `loadResumes` from the home route: `kv.list('resume:*', true)`, then
`resumes?.map((resume) => JSON.parse(resume.value))` and
`setResumes(parsedResumes || [])`.  A rejected list call propagates; an
absent list yields `[]`; otherwise the map parses every value with
throw-on-first-failure semantics (`parseAll`).  The third component
lists the patterns passed to `kv.list`. -/
def loadResumes (env : Option Puter) (s : StoreState)
    (jsonParse : String → Except JSError Resume) :
    (StoreState × Except JSError (List Resume)) × List String :=
  let patterns := [resumeListPattern]
  match listKV env s resumeListPattern (some true) with
  | (s1, Except.error e) => ((s1, Except.error e), patterns)
  | (s1, Except.ok none) => ((s1, Except.ok []), patterns)
  | (s1, Except.ok (some items)) => ((s1, parseAll jsonParse items), patterns)

/-!
Submission pipeline.  `handleSubmit` in `upload.tsx` only collects the
form fields and logs them: the staged pipeline the specification
describes (upload source, derive preview, upload preview, persist
provisional record, analyze, persist final record) is not present under
`src/`.  It is therefore modelled here from the specification (sections
4.2 and 6), with two facts taken from the `src/` read paths as the
authority where they speak: the key-value key convention is
`resumeKey` (`"resume:" ++ id`), and the persisted value carries the
fields of `Resume`.  Serialization to the flat text payload is treated
as transparent: the modelled store holds the decoded Record. -/

/-- The submission input: company name, job title, job description and
the picked document (opaque). -/
structure SubmitInput where
  companyName : String
  jobTitle : String
  jobDescription : String
  document : String
deriving DecidableEq, Repr

/-- Modelled from the spec: the key-value store backing the records, as
a map from keys to decoded Records (`set` is last-write-wins). -/
abbrev KVStore := List (String × Resume)

/-- Modelled from the spec: `set(key, value)` replaces any previous
entry under the key. -/
def kvStoreSet (store : KVStore) (key : String) (v : Resume) : KVStore :=
  (key, v) :: store.filter (fun p => p.1 ≠ key)

/-- Modelled from the spec: `get(key)`. -/
def kvStoreGet (store : KVStore) (key : String) : Option Resume :=
  (store.find? (fun p => p.1 = key)).map (fun p => p.2)

/-- Pipeline status tokens, in the order the spec lists them. -/
inductive Status where
  | idle
  | uploadingSource
  | convertingPreview
  | uploadingPreview
  | persistingProvisional
  | analyzing
  | complete (id : String)
  | failed (msg : String)
deriving DecidableEq, Repr

/-- Modelled from the spec: the collaborators and remote outcomes one
pipeline run observes — blob upload (file to storage path), the external
rasterizer, whether key-value writes succeed, the inference call
(document reference and instruction text to response), the pure prompt
builder, the feedback-payload parser, and the fresh id the unique-id
generator returns for this run. -/
structure PipelineEnv where
  fsUploadRes : String → Option String
  convert : String → Option String
  kvSetOk : Bool
  aiFeedbackRes : String → String → Option AIResponse
  render : String → String → String
  parseFeedback : String → Option Feedback
  freshId : String

/-- Modelled from the spec: the inference response's content is either a
plain string or a sequence whose first element carries the text. -/
def extractText (r : AIResponse) : Option String :=
  match r.content with
  | Sum.inl s => some s
  | Sum.inr parts => parts.head?.map (fun p => p.text)

/-- Everything one pipeline run produced: the status tokens in emission
order, the final key-value store, the writes performed (key and record,
in order) and the terminal status. -/
structure PipelineResult where
  statuses : List Status
  store : KVStore
  writes : List (String × Resume)
  final : Status
deriving Repr

/-- Modelled from the spec (section 4.2): the six stages in order, each
gated on the previous stage's success, stopping at the first failure.  A
failed provisional write stops silently with no distinct terminal token
(the open question of section 9); the provisional record is written with
empty feedback, the final record rewrites the same key with the parsed
feedback. -/
def runPipeline (env : PipelineEnv) (store : KVStore) (input : SubmitInput) :
    PipelineResult :=
  let t0 := [Status.idle, Status.uploadingSource]
  match env.fsUploadRes input.document with
  | none =>
    { statuses := t0 ++ [Status.failed "UploadFailed"], store := store
      writes := [], final := Status.failed "UploadFailed" }
  | some rawRef =>
    let t1 := t0 ++ [Status.convertingPreview]
    match env.convert input.document with
    | none =>
      { statuses := t1 ++ [Status.failed "ConversionFailed"], store := store
        writes := [], final := Status.failed "ConversionFailed" }
    | some previewFile =>
      let t2 := t1 ++ [Status.uploadingPreview]
      match env.fsUploadRes previewFile with
      | none =>
        { statuses := t2 ++ [Status.failed "UploadFailed"], store := store
          writes := [], final := Status.failed "UploadFailed" }
      | some previewRef =>
        let t3 := t2 ++ [Status.persistingProvisional]
        let id := env.freshId
        let provisional : Resume :=
          { id := id, companyName := input.companyName
            jobTitle := input.jobTitle, jobDescription := input.jobDescription
            resumePath := rawRef, imagePath := previewRef, feedback := none }
        if env.kvSetOk = false then
          { statuses := t3, store := store, writes := []
            final := Status.persistingProvisional }
        else
          let store1 := kvStoreSet store (resumeKey id) provisional
          let t4 := t3 ++ [Status.analyzing]
          match env.aiFeedbackRes rawRef
              (env.render input.jobTitle input.jobDescription) with
          | none =>
            { statuses := t4 ++ [Status.failed "AnalysisFailed"]
              store := store1, writes := [(resumeKey id, provisional)]
              final := Status.failed "AnalysisFailed" }
          | some resp =>
            match extractText resp with
            | none =>
              { statuses := t4 ++ [Status.failed "MalformedFeedback"]
                store := store1, writes := [(resumeKey id, provisional)]
                final := Status.failed "MalformedFeedback" }
            | some txt =>
              match env.parseFeedback txt with
              | none =>
                { statuses := t4 ++ [Status.failed "MalformedFeedback"]
                  store := store1, writes := [(resumeKey id, provisional)]
                  final := Status.failed "MalformedFeedback" }
              | some fb =>
                let finalRec := { provisional with feedback := some fb }
                let store2 := kvStoreSet store1 (resumeKey id) finalRec
                { statuses := t4 ++ [Status.complete id], store := store2
                  writes := [(resumeKey id, provisional),
                             (resumeKey id, finalRec)]
                  final := Status.complete id }

/-- Modelled from the spec (section 6): the read path
`retrieve(id) -> Record|absent` over the modelled store. -/
def retrieve (store : KVStore) (id : String) : Option Resume :=
  kvStoreGet store (resumeKey id)

/-!
Reachable store states, at two granularities.  The store is written by
individual `set()` calls on a single-threaded event loop; an operation
with several `set()` calls suspends at each `await` between them, and
other UI-triggered calls may interleave at those suspension points
(section 5 calls the error state best-effort for this reason).  `Step`
is the coarse model: each constructor is one facade operation run to
completion with no interleaving (or one of `init`'s two state effects,
or `clearError`, or a bare `setError` invocation), with an arbitrary
platform environment and arbitrary arguments.  `FineStep` below is the
fine model: each constructor is one individual `set()` call as it
appears in the source, so interleaved schedules (any order of writes
from concurrently pending operations) are also covered. -/

/-- One complete facade operation as an atomic store transition (the
no-interleaving discipline). -/
inductive Step : StoreState → StoreState → Prop where
  | ofSetError (s : StoreState) (msg : String) : Step s (setError s msg)
  | ofClearError (s : StoreState) : Step s (clearError s)
  | ofCheckAuthStatus (env : Option Puter) (s : StoreState) :
      Step s (checkAuthStatus env s).1
  | ofSignIn (env : Option Puter) (s : StoreState) : Step s (signIn env s)
  | ofSignOut (env : Option Puter) (s : StoreState) : Step s (signOut env s)
  | ofRefreshUser (env : Option Puter) (s : StoreState) :
      Step s (refreshUser env s)
  | ofInitReady (s : StoreState) : Step s { s with puterReady := true }
  | ofInitTimeout (s : StoreState) :
      Step s (setError s "Puter.js failed to load within 10 seconds")
  | ofWrite (env : Option Puter) (s : StoreState) (path data : String) :
      Step s (write env s path data).1
  | ofReadDir (env : Option Puter) (s : StoreState) (path : String) :
      Step s (readDir env s path).1
  | ofReadFile (env : Option Puter) (s : StoreState) (path : String) :
      Step s (readFile env s path).1
  | ofUpload (env : Option Puter) (s : StoreState) (files : List String) :
      Step s (upload env s files).1
  | ofDeleteFile (env : Option Puter) (s : StoreState) (path : String) :
      Step s (deleteFile env s path).1
  | ofChat (env : Option Puter) (s : StoreState)
      (prompt : Sum String (List ChatMessage))
      (imageURL : Option (Sum String PuterChatOptions))
      (testMode : Option Bool) (options : Option PuterChatOptions) :
      Step s (chat env s prompt imageURL testMode options).1
  | ofFeedback (env : Option Puter) (s : StoreState) (path message : String) :
      Step s (feedback env s path message).1
  | ofImg2txt (env : Option Puter) (s : StoreState) (image : String)
      (testMode : Option Bool) : Step s (img2txt env s image testMode).1
  | ofGetKV (env : Option Puter) (s : StoreState) (key : String) :
      Step s (getKV env s key).1
  | ofSetKV (env : Option Puter) (s : StoreState) (key value : String) :
      Step s (setKV env s key value).1
  | ofDeleteKV (env : Option Puter) (s : StoreState) (key : String) :
      Step s (deleteKV env s key).1
  | ofListKV (env : Option Puter) (s : StoreState) (pattern : String)
      (returnValues : Option Bool) :
      Step s (listKV env s pattern returnValues).1
  | ofFlushKV (env : Option Puter) (s : StoreState) :
      Step s (flushKV env s).1

/-- Store states reachable from the initial store value through complete
facade operations running without interleaving. -/
inductive Reachable : StoreState → Prop where
  | start : Reachable initialState
  | trans {s s' : StoreState} : Reachable s → Step s s' → Reachable s'

/-- The invariant claimed of every reachable state: a recorded error
implies a signed-out session. -/
def errorImpliesSignedOut (s : StoreState) : Prop :=
  s.error ≠ none → s.auth.user = none ∧ s.auth.isAuthenticated = false

/-- One individual `set()` call of the source, the store's actual unit
of mutation.  `ofOpStart` is the `set({isLoading: true, error: null})`
at the head of the four identity operations; `ofSignedInWrite` is the
signed-in write of `checkAuthStatus`'s positive branch and of
`refreshUser` (it does not touch `error`); `ofSignedOutWrite` is the
signed-out write of `checkAuthStatus`'s negative branch and of
`signOut`'s fulfilment branch; `ofSetError` is any catch or
platform-absent branch; `ofInitReady` is `init`'s ready write;
`ofClearError` is `clearError`.  On the single-threaded event loop these
writes from concurrently pending operations may follow one another in
any interleaved order. -/
inductive FineStep : StoreState → StoreState → Prop where
  | ofSetError (s : StoreState) (msg : String) : FineStep s (setError s msg)
  | ofClearError (s : StoreState) : FineStep s (clearError s)
  | ofOpStart (s : StoreState) :
      FineStep s { s with isLoading := true, error := none }
  | ofSignedInWrite (s : StoreState) (u : PuterUser) :
      FineStep s { s with
        auth := { user := some u, isAuthenticated := true }
        isLoading := false }
  | ofSignedOutWrite (s : StoreState) :
      FineStep s { s with
        auth := { user := none, isAuthenticated := false }
        isLoading := false }
  | ofInitReady (s : StoreState) : FineStep s { s with puterReady := true }

/-- Store states reachable when the individual `set()` calls of pending
operations may interleave at `await` suspension points. -/
inductive FineReachable : StoreState → Prop where
  | start : FineReachable initialState
  | trans {s s' : StoreState} :
      FineReachable s → FineStep s s' → FineReachable s'

/-!
Concrete platform instances used by closed counterexamples and
witnesses. -/

/-- A signed-in user. -/
def okUser : PuterUser := { uuid := "u-1", username := "alice" }

/-- A platform handle whose every call fulfils. -/
def basePuter : Puter :=
  { authGetUser := Except.ok okUser
    authIsSignedIn := Except.ok true
    authSignIn := Except.ok ()
    authSignOut := Except.ok ()
    fsWrite := fun _ _ => Except.ok (some { path := "/f", name := "f" })
    fsRead := fun _ => Except.ok (some "blob")
    fsUpload := fun _ => Except.ok (some { path := "/f", name := "f" })
    fsDelete := fun _ => Except.ok (some ())
    fsReaddir := fun _ => Except.ok (some [])
    aiChat := fun _ => Except.ok (some { content := Sum.inl "ok" })
    aiImg2txt := fun _ _ => Except.ok (some "txt")
    kvGet := fun _ => Except.ok (some "v")
    kvSet := fun _ _ => Except.ok (some true)
    kvDelete := fun _ => Except.ok (some true)
    kvList := fun _ _ => Except.ok (some [])
    kvFlush := Except.ok (some true) }

/-- A platform handle whose `kv.set` rejects. -/
def kvRejectPuter : Puter :=
  { basePuter with kvSet := fun _ _ => Except.error (some "kv.set failed") }

/-- A tiny stand-in for `JSON.parse` on stored record values: it throws
on the empty string (as `JSON.parse('')` does) and decodes any other
string into a record carrying it as id. -/
def toyParse : String → Except JSError Resume := fun str =>
  if str = "" then Except.error (some "Unexpected end of JSON input")
  else Except.ok
    { id := str, companyName := "", jobTitle := "", jobDescription := ""
      resumePath := "", imagePath := "", feedback := none }

/-- A platform handle whose `kv.list` yields one well-formed and one
malformed stored value. -/
def twoItemPuter : Puter :=
  { basePuter with kvList := fun _ _ => Except.ok (some
      [{ key := "resume:a", value := "A" },
       { key := "resume:b", value := "" }]) }

/-- A platform handle whose `kv.list` yields only well-formed stored
values. -/
def goodListPuter : Puter :=
  { basePuter with kvList := fun _ _ => Except.ok (some
      [{ key := "resume:a", value := "A" },
       { key := "resume:c", value := "C" }]) }

/-- A pipeline environment in which every remote call succeeds. -/
def witnessPipelineEnv : PipelineEnv :=
  { fsUploadRes := fun d =>
      if d = "resume.pdf" then some "/files/resume.pdf"
      else some "/files/preview.png"
    convert := fun _ => some "preview.png"
    kvSetOk := true
    aiFeedbackRes := fun _ _ => some { content := Sum.inl "parsed-feedback" }
    render := fun title _ => "analyze for " ++ title
    parseFeedback := fun t => some { raw := t }
    freshId := "id-1" }

/-- C5: for every facade operation in every capability group, if the
platform handle is absent when the operation is invoked, the operation
records the platform-unavailable message (`'Puter.js not available'`)
through `setError` and returns its absent result (`undefined`, `false`
for `checkAuthStatus`, a bare return for the void identity operations)
without raising. -/
theorem facade_absent_platform_contract (s : StoreState)
    (path data key value pat image message : String)
    (files : List String) (prompt : Sum String (List ChatMessage))
    (imageURL : Option (Sum String PuterChatOptions))
    (testMode returnValues : Option Bool)
    (options : Option PuterChatOptions) :
    write none s path data = (setError s puterUnavailableMsg, Except.ok none) ∧
    readFile none s path = (setError s puterUnavailableMsg, Except.ok none) ∧
    readDir none s path = (setError s puterUnavailableMsg, Except.ok none) ∧
    upload none s files = (setError s puterUnavailableMsg, Except.ok none) ∧
    deleteFile none s path = (setError s puterUnavailableMsg, Except.ok none) ∧
    chat none s prompt imageURL testMode options =
      (setError s puterUnavailableMsg, Except.ok none) ∧
    feedback none s path message =
      (setError s puterUnavailableMsg, Except.ok none, []) ∧
    img2txt none s image testMode =
      (setError s puterUnavailableMsg, Except.ok none) ∧
    getKV none s key = (setError s puterUnavailableMsg, Except.ok none) ∧
    setKV none s key value = (setError s puterUnavailableMsg, Except.ok none) ∧
    deleteKV none s key = (setError s puterUnavailableMsg, Except.ok none) ∧
    listKV none s pat returnValues =
      (setError s puterUnavailableMsg, Except.ok none) ∧
    flushKV none s = (setError s puterUnavailableMsg, Except.ok none) ∧
    checkAuthStatus none s = (setError s puterUnavailableMsg, false) ∧
    signIn none s = setError s puterUnavailableMsg ∧
    signOut none s = setError s puterUnavailableMsg ∧
    refreshUser none s = setError s puterUnavailableMsg ∧
    (setError s puterUnavailableMsg).error = some puterUnavailableMsg :=
  ⟨rfl, rfl, rfl, rfl, rfl, rfl, rfl, rfl, rfl, rfl, rfl, rfl, rfl, rfl,
   rfl, rfl, rfl, rfl⟩

/-- C6: whenever the platform handle is present, `signOut` leaves the
local session signed-out once the remote call settles, whether the
remote `puter.auth.signOut()` fulfilled or rejected (the rejection path
runs `setError`, which also clears the session). -/
theorem signOut_always_clears_session (p : Puter) (s : StoreState) :
    (signOut (some p) s).auth.user = none ∧
    (signOut (some p) s).auth.isAuthenticated = false := by
  cases hso : p.authSignOut <;> simp [signOut, hso, setError]

/-- C7: with the platform present, when `puter.auth.isSignedIn()`
reports not-signed-in the session becomes signed-out, no error is left
in the shared error state, and the call returns `false`; when it reports
signed-in and the identity fetch fulfils with `u`, the session becomes
signed-in with `u` and the call returns `true`. -/
theorem checkAuthStatus_branches (p : Puter) (s : StoreState) (u : PuterUser) :
    ((checkAuthStatus (some { p with authIsSignedIn := Except.ok false }) s).1.auth.user
        = none ∧
     (checkAuthStatus (some { p with authIsSignedIn := Except.ok false }) s).1.auth.isAuthenticated
        = false ∧
     (checkAuthStatus (some { p with authIsSignedIn := Except.ok false }) s).1.error
        = none ∧
     (checkAuthStatus (some { p with authIsSignedIn := Except.ok false }) s).2
        = false) ∧
    ((checkAuthStatus (some { p with
        authIsSignedIn := Except.ok true, authGetUser := Except.ok u }) s).1.auth.user
        = some u ∧
     (checkAuthStatus (some { p with
        authIsSignedIn := Except.ok true, authGetUser := Except.ok u }) s).1.auth.isAuthenticated
        = true ∧
     (checkAuthStatus (some { p with
        authIsSignedIn := Except.ok true, authGetUser := Except.ok u }) s).2
        = true) :=
  ⟨⟨rfl, rfl, rfl, rfl⟩, ⟨rfl, rfl, rfl⟩⟩

/-- C8: with the platform present, `feedback(path, message)` performs
exactly one inference call; its request is a single user message
combining the file reference and the instruction text, with the fixed
model `'claude-3-7-sonnet'` that no argument can influence; the single
call's response is returned unchanged (no chunking, retrying or
streaming). -/
theorem feedback_single_fixed_request (p : Puter) (s : StoreState)
    (path message : String) :
    (feedback (some p) s path message).2.2 = [feedbackArgs path message] ∧
    (feedback (some p) s path message).2.1 =
      p.aiChat (feedbackArgs path message) ∧
    (feedback (some p) s path message).1 = s ∧
    (feedbackArgs path message).prompt = Sum.inr
      [{ role := "user"
         content := [ChatContentPart.file path,
                     ChatContentPart.text message] }] ∧
    (feedbackArgs path message).imageURL =
      some (Sum.inr { model := some "claude-3-7-sonnet" }) ∧
    (feedbackArgs path message).testMode = none :=
  ⟨rfl, rfl, rfl, rfl, rfl, rfl⟩

/-- C2 counterexample: with the platform present, a rejection of the
underlying `puter.kv.set` is not recorded and not converted to an absent
result: `setKV` forwards the rejection to its caller unchanged, the
shared error state still holds no message and the in-flight flag is
still true. -/
theorem setKV_rejection_counterexample :
    (setKV (some kvRejectPuter) initialState "resume:1" "v").2 =
      Except.error (some "kv.set failed") ∧
    (setKV (some kvRejectPuter) initialState "resume:1" "v").1 =
      initialState ∧
    initialState.error = none ∧
    initialState.isLoading = true :=
  ⟨rfl, rfl, rfl, rfl⟩

/-- C2 (amended): the never-raise / record-in-shared-state contract
holds in full only for the identity operations, whose bodies run inside
`try/catch`: when their underlying call rejects they record the
human-readable message, leave the in-flight flag false and the session
signed-out, and return their negative result.  The blob-store, inference
and key-value operations handle only platform absence that way; when
their underlying platform call rejects, the rejection propagates to the
caller unchanged and the shared state is not touched. -/
theorem facade_error_contract_amended (p : Puter) (e : JSError)
    (s : StoreState) (path data key value pat image message : String)
    (files : List String) (prompt : Sum String (List ChatMessage))
    (imageURL : Option (Sum String PuterChatOptions))
    (testMode returnValues : Option Bool)
    (options : Option PuterChatOptions) :
    ((signIn (some { p with authSignIn := Except.error e }) s).error =
       some (errorMessage e "Sign in failed") ∧
     (signIn (some { p with authSignIn := Except.error e }) s).isLoading =
       false ∧
     (signIn (some { p with authSignIn := Except.error e }) s).auth.user =
       none) ∧
    ((signOut (some { p with authSignOut := Except.error e }) s).error =
       some (errorMessage e "Sign out failed") ∧
     (signOut (some { p with authSignOut := Except.error e }) s).isLoading =
       false) ∧
    ((refreshUser (some { p with authGetUser := Except.error e }) s).error =
       some (errorMessage e "Failed to refresh user") ∧
     (refreshUser (some { p with authGetUser := Except.error e }) s).isLoading =
       false) ∧
    ((checkAuthStatus (some { p with authIsSignedIn := Except.error e }) s).1.error =
       some (errorMessage e "Failed to check auth status") ∧
     (checkAuthStatus (some { p with authIsSignedIn := Except.error e }) s).1.isLoading =
       false ∧
     (checkAuthStatus (some { p with authIsSignedIn := Except.error e }) s).2 =
       false) ∧
    write (some { p with fsWrite := fun _ _ => Except.error e }) s path data =
      (s, Except.error e) ∧
    readFile (some { p with fsRead := fun _ => Except.error e }) s path =
      (s, Except.error e) ∧
    readDir (some { p with fsReaddir := fun _ => Except.error e }) s path =
      (s, Except.error e) ∧
    upload (some { p with fsUpload := fun _ => Except.error e }) s files =
      (s, Except.error e) ∧
    deleteFile (some { p with fsDelete := fun _ => Except.error e }) s path =
      (s, Except.error e) ∧
    chat (some { p with aiChat := fun _ => Except.error e }) s prompt
        imageURL testMode options = (s, Except.error e) ∧
    (feedback (some { p with aiChat := fun _ => Except.error e }) s path
        message).2.1 = Except.error e ∧
    (feedback (some { p with aiChat := fun _ => Except.error e }) s path
        message).1 = s ∧
    img2txt (some { p with aiImg2txt := fun _ _ => Except.error e }) s image
        testMode = (s, Except.error e) ∧
    getKV (some { p with kvGet := fun _ => Except.error e }) s key =
      (s, Except.error e) ∧
    setKV (some { p with kvSet := fun _ _ => Except.error e }) s key value =
      (s, Except.error e) ∧
    deleteKV (some { p with kvDelete := fun _ => Except.error e }) s key =
      (s, Except.error e) ∧
    listKV (some { p with kvList := fun _ _ => Except.error e }) s pat
        returnValues = (s, Except.error e) ∧
    flushKV (some { p with kvFlush := Except.error e }) s =
      (s, Except.error e) :=
  ⟨⟨rfl, rfl, rfl⟩, ⟨rfl, rfl⟩, ⟨rfl, rfl⟩, ⟨rfl, rfl, rfl⟩,
   rfl, rfl, rfl, rfl, rfl, rfl, rfl, rfl, rfl, rfl, rfl, rfl, rfl, rfl⟩

/-- C3 counterexample: the Resume route's read path queries the store
under `'resume:' + id`, which differs from the claimed literal
`'record:' + id`. -/
theorem record_key_counterexample :
    (loadResume none initialState "abc" (fun _ => Except.error none)).2 =
      ["resume:abc"] ∧
    ¬ ("resume:abc" = "record:" ++ "abc") := by
  constructor
  · rfl
  · decide

/-- Every key-value key the Resume route queries is `'resume:' + id`,
whatever the platform yields. -/
theorem loadResume_queried_key (env : Option Puter) (s : StoreState)
    (id : String) (jsonParse : String → Except JSError Resume) :
    (loadResume env s id jsonParse).2 = [resumeKey id] := by
  unfold loadResume
  repeat' split
  all_goals rfl

/-- Every pattern the home route passes to `kv.list` is `'resume:*'`. -/
theorem loadResumes_queried_pattern (env : Option Puter) (s : StoreState)
    (jsonParse : String → Except JSError Resume) :
    (loadResumes env s jsonParse).2 = [resumeListPattern] := by
  unfold loadResumes
  repeat' split
  all_goals rfl

/-- Every write the modelled pipeline performs is keyed by
`resumeKey` of the run's fresh id. -/
theorem runPipeline_writes_key (env : PipelineEnv) (store : KVStore)
    (input : SubmitInput) :
    ∀ w ∈ (runPipeline env store input).writes,
      w.1 = resumeKey env.freshId := by
  intro w hw
  unfold runPipeline at hw
  repeat' split at hw
  all_goals simp_all
  all_goals (rcases hw with h | h <;> simp [h])

/-- C3 (amended): the key convention is the literal prefix `'resume:'`
(not `'record:'`): the persisting writes of the modelled pipeline all
use the key `'resume:' + id` of the run's fresh id, the Resume route
reads under `'resume:' + id`, and the home route lists under the
`'resume:'` prefix with pattern `'resume:*'`. -/
theorem record_key_convention_amended (env : Option Puter) (s : StoreState)
    (id : String) (jsonParse : String → Except JSError Resume)
    (penv : PipelineEnv) (store : KVStore) (input : SubmitInput) :
    (loadResume env s id jsonParse).2 = ["resume:" ++ id] ∧
    (loadResumes env s jsonParse).2 = ["resume:" ++ "*"] ∧
    ∀ w ∈ (runPipeline penv store input).writes,
      w.1 = "resume:" ++ penv.freshId := by
  exact ⟨loadResume_queried_key env s id jsonParse,
         loadResumes_queried_pattern env s jsonParse,
         runPipeline_writes_key penv store input⟩

/-- Witness for C3 (amended) at a concrete input: the provisional write
of one successful pipeline run is keyed `'resume:' + 'id-1'`. -/
theorem record_key_convention_amended_witness :
    ("resume:id-1",
      ({ id := "id-1", companyName := "Acme", jobTitle := "Engineer"
         jobDescription := "Build things", resumePath := "/files/resume.pdf"
         imagePath := "/files/preview.png", feedback := none } : Resume)).1 =
      "resume:" ++ "id-1" :=
  (record_key_convention_amended (some basePuter) initialState "abc" toyParse
    witnessPipelineEnv []
    { companyName := "Acme", jobTitle := "Engineer"
      jobDescription := "Build things", document := "resume.pdf" }).2.2 _
    (by decide)

/-- If some value in the list fails to deserialize, the mapped parse of
the whole list fails. -/
theorem parseAll_error_of_mem (jsonParse : String → Except JSError Resume)
    (items : List KVItem) (it : KVItem) (hmem : it ∈ items) (e : JSError)
    (hbad : jsonParse it.value = Except.error e) :
    ∃ e', parseAll jsonParse items = Except.error e' := by
  induction items with
  | nil => cases hmem
  | cons hd tl ih =>
    rcases List.mem_cons.mp hmem with h | h
    · subst h
      exact ⟨e, by simp [parseAll, hbad]⟩
    · rcases ih h with ⟨e', he'⟩
      unfold parseAll
      cases hhd : jsonParse hd.value with
      | error e0 => exact ⟨e0, rfl⟩
      | ok r => exact ⟨e', by simp [he']⟩

/-- If every value in the list deserializes, the mapped parse returns a
list of the same length. -/
theorem parseAll_ok_of_all (jsonParse : String → Except JSError Resume)
    (items : List KVItem)
    (hall : ∀ it ∈ items, ∃ r, jsonParse it.value = Except.ok r) :
    ∃ rs, parseAll jsonParse items = Except.ok rs ∧
      rs.length = items.length := by
  induction items with
  | nil => exact ⟨[], rfl, rfl⟩
  | cons hd tl ih =>
    rcases hall hd (by simp) with ⟨r, hr⟩
    rcases ih (fun it hit => hall it (by simp [hit])) with ⟨rs, hrs, hlen⟩
    exact ⟨r :: rs, by simp [parseAll, hr, hrs], by simp [hlen]⟩

/-- C9 counterexample: with two stored entries whose first value
deserializes and whose second does not, `loadResumes` rejects as a whole
with the parse exception — the first, well-formed entry is not
returned. -/
theorem listAll_whole_list_failure_counterexample :
    toyParse "A" = Except.ok
      { id := "A", companyName := "", jobTitle := "", jobDescription := ""
        resumePath := "", imagePath := "", feedback := none } ∧
    toyParse "" = Except.error (some "Unexpected end of JSON input") ∧
    (loadResumes (some twoItemPuter) initialState toyParse).1.2 =
      Except.error (some "Unexpected end of JSON input") := by
  refine ⟨?_, ?_, ?_⟩ <;> rfl

/-- C9 (amended): `loadResumes` deserializes each stored value with
`JSON.parse` inside `Array.map`, so one malformed value makes the whole
listing fail (the exception propagates and no entries are returned);
only when every value deserializes does the call return the full list,
one record per entry. -/
theorem listAll_per_item_vs_whole_list (p : Puter) (s : StoreState)
    (jsonParse : String → Except JSError Resume) (items : List KVItem)
    (hlist : p.kvList "resume:*" true = Except.ok (some items)) :
    ((∃ it ∈ items, ∃ e, jsonParse it.value = Except.error e) →
      ∃ e', (loadResumes (some p) s jsonParse).1.2 = Except.error e') ∧
    ((∀ it ∈ items, ∃ r, jsonParse it.value = Except.ok r) →
      ∃ rs, (loadResumes (some p) s jsonParse).1.2 = Except.ok rs ∧
        rs.length = items.length) := by
  have hres : (loadResumes (some p) s jsonParse).1.2 =
      parseAll jsonParse items := by
    simp [loadResumes, listKV, resumeListPattern, hlist]
  constructor
  · rintro ⟨it, hmem, e, hbad⟩
    rcases parseAll_error_of_mem jsonParse items it hmem e hbad with ⟨e', he'⟩
    exact ⟨e', by rw [hres, he']⟩
  · intro hall
    rcases parseAll_ok_of_all jsonParse items hall with ⟨rs, hrs, hlen⟩
    exact ⟨rs, by rw [hres, hrs], hlen⟩

/-- Witness for C9 (amended): at the two concrete platforms above, the
mixed listing fails as a whole and the fully well-formed listing returns
both records. -/
theorem listAll_per_item_vs_whole_list_witness :
    (∃ e', (loadResumes (some twoItemPuter) initialState toyParse).1.2 =
      Except.error e') ∧
    (∃ rs, (loadResumes (some goodListPuter) initialState toyParse).1.2 =
      Except.ok rs ∧ rs.length = 2) := by
  constructor
  · exact (listAll_per_item_vs_whole_list twoItemPuter initialState toyParse
      [{ key := "resume:a", value := "A" }, { key := "resume:b", value := "" }]
      rfl).1
      ⟨{ key := "resume:b", value := "" }, by decide,
       some "Unexpected end of JSON input", rfl⟩
  · exact (listAll_per_item_vs_whole_list goodListPuter initialState toyParse
      [{ key := "resume:a", value := "A" }, { key := "resume:c", value := "C" }]
      rfl).2
      (by intro it hit
          rcases List.mem_cons.mp hit with h | h
          · subst h; exact ⟨_, rfl⟩
          · rcases List.mem_cons.mp h with h2 | h2
            · subst h2; exact ⟨_, rfl⟩
            · cases h2)

/-- A cleared interval never polls again. -/
theorem pollStep_inactive (avail : Nat → Bool) (h : HandshakeResult)
    (t : Nat) (hh : h.intervalActive = false) : pollStep avail h t = h := by
  simp [pollStep, hh]

/-- A cleared interval stays untouched by any sequence of tick times. -/
theorem foldl_pollStep_inactive (avail : Nat → Bool) (ts : List Nat)
    (h : HandshakeResult) (hh : h.intervalActive = false) :
    ts.foldl (pollStep avail) h = h := by
  induction ts with
  | nil => rfl
  | cons t ts ih => rw [List.foldl_cons, pollStep_inactive avail h t hh, ih]

/-- While the handle stays absent, every tick polls and nothing else
changes. -/
theorem foldl_pollStep_absent (avail : Nat → Bool) (ts : List Nat)
    (h : HandshakeResult) (hact : h.intervalActive = true)
    (hna : ∀ t ∈ ts, avail t = false) :
    ts.foldl (pollStep avail) h = { h with polls := h.polls ++ ts } := by
  induction ts generalizing h with
  | nil => simp
  | cons t ts ih =>
    have h1 : pollStep avail h t = { h with polls := h.polls ++ [t] } := by
      simp [pollStep, hact, hna t (by simp)]
    rw [List.foldl_cons, h1,
      ih { h with polls := h.polls ++ [t] } hact
        (fun t' ht' => hna t' (by simp [ht']))]
    simp

/-- If some tick in the sequence sees the handle, the fold ends ready
with the interval cleared and the error count unchanged. -/
theorem foldl_pollStep_found (avail : Nat → Bool) (ts : List Nat)
    (h : HandshakeResult) (hact : h.intervalActive = true)
    (hex : ∃ t ∈ ts, avail t = true) :
    (ts.foldl (pollStep avail) h).ready = true ∧
    (ts.foldl (pollStep avail) h).errorCount = h.errorCount ∧
    (ts.foldl (pollStep avail) h).intervalActive = false := by
  induction ts generalizing h with
  | nil => rcases hex with ⟨t, ht, _⟩; cases ht
  | cons t ts ih =>
    by_cases hat : avail t = true
    · have h1 : pollStep avail h t =
          { h with
            intervalActive := false
            ready := true
            polls := h.polls ++ [t] } := by
        simp [pollStep, hact, hat]
      rw [List.foldl_cons, h1, foldl_pollStep_inactive avail ts _ rfl]
      exact ⟨rfl, rfl, rfl⟩
    · have hat' : avail t = false := by simpa using hat
      have h1 : pollStep avail h t = { h with polls := h.polls ++ [t] } := by
        simp [pollStep, hact, hat']
      rcases hex with ⟨t0, ht0, hav0⟩
      rcases List.mem_cons.mp ht0 with heq | hmem
      · exact absurd (heq ▸ hav0) (by simpa using hat)
      · rw [List.foldl_cons, h1]
        exact ih { h with polls := h.polls ++ [t] } hact ⟨t0, hmem, hav0⟩

/-- Every interval tick lies within the 10 s window. -/
theorem pollTimes_le : ∀ t ∈ pollTimes, t ≤ 10000 := by decide

/-- C4: readiness handshake.  If the handle is absent throughout the
10 s window (ticks every 100 ms), the handshake records the failure
exactly once and the interval is cleared, so no tick can poll afterwards;
if the handle appears (and stays, the handle being monotone) at any time
within the window, the ready flag is set and the handshake never records
an error. -/
theorem handshake_timeout_behaviour (avail : Nat → Bool) :
    ((∀ t, t ≤ 10000 → avail t = false) →
      (runHandshake avail).errorCount = 1 ∧
      (runHandshake avail).intervalActive = false ∧
      ∀ t, pollStep avail (runHandshake avail) t = runHandshake avail) ∧
    ((∀ a b, a ≤ b → avail a = true → avail b = true) →
      (∃ t, t ≤ 10000 ∧ avail t = true) →
      (runHandshake avail).ready = true ∧
      (runHandshake avail).errorCount = 0) := by
  constructor
  · intro hnever
    have h0 : avail 0 = false := hnever 0 (by omega)
    have hfold := foldl_pollStep_absent avail pollTimes
      { ready := false, errorCount := 0, intervalActive := true, polls := [] }
      rfl (fun t ht => hnever t (pollTimes_le t ht))
    have hrun : runHandshake avail =
        { ready := false, errorCount := 1, intervalActive := false
          polls := pollTimes } := by
      rw [runHandshake, if_neg (by simp [h0]), hfold]
      simp [timeoutStep, hnever 10000 (by omega)]
    rw [hrun]
    refine ⟨rfl, rfl, fun t => ?_⟩
    exact pollStep_inactive avail _ t rfl
  · intro hmono hex
    by_cases h0 : avail 0 = true
    · simp [runHandshake, h0]
    · have h0' : avail 0 = false := by simpa using h0
      rcases hex with ⟨t0, ht0le, ht0av⟩
      have ht0pos : 1 ≤ t0 := by
        rcases Nat.eq_zero_or_pos t0 with h | h
        · exact absurd (h ▸ ht0av) (by simp [h0'])
        · exact h
      set p := 100 * ((t0 + 99) / 100) with hp
      have hple : t0 ≤ p := by omega
      have hp10000 : p ≤ 10000 := by omega
      have hpmem : p ∈ pollTimes := by
        simp only [pollTimes, List.mem_map, List.mem_range]
        exact ⟨(t0 + 99) / 100 - 1, by omega, by omega⟩
      have hpav : avail p = true := hmono t0 p hple ht0av
      have hfold := foldl_pollStep_found avail pollTimes
        { ready := false, errorCount := 0, intervalActive := true
          polls := [] } rfl ⟨p, hpmem, hpav⟩
      have hav10000 : avail 10000 = true := hmono p 10000 hp10000 hpav
      rw [runHandshake, if_neg (by simp [h0'])]
      simp [timeoutStep, hav10000]
      exact ⟨hfold.1, hfold.2.1⟩

/-- Witness for C4: with a never-appearing handle the failure is
recorded exactly once; with a handle appearing at 300 ms the ready flag
is set and no error is ever recorded. -/
theorem handshake_timeout_behaviour_witness :
    (runHandshake (fun _ => false)).errorCount = 1 ∧
    (runHandshake (fun t => decide (300 ≤ t))).ready = true ∧
    (runHandshake (fun t => decide (300 ≤ t))).errorCount = 0 := by
  refine ⟨((handshake_timeout_behaviour (fun _ => false)).1
    (fun _ _ => rfl)).1, ?_, ?_⟩
  · exact ((handshake_timeout_behaviour (fun t => decide (300 ≤ t))).2
      (by intro a b hab ha; simp only [decide_eq_true_iff] at ha ⊢; omega)
      ⟨300, by omega, by decide⟩).1
  · exact ((handshake_timeout_behaviour (fun t => decide (300 ≤ t))).2
      (by intro a b hab ha; simp only [decide_eq_true_iff] at ha ⊢; omega)
      ⟨300, by omega, by decide⟩).2

/-- Entries surviving a removal of key `k` never match `k`. -/
theorem filter_ne_then_eq (store : KVStore) (k : String) :
    ((store.filter (fun p => p.1 ≠ k)).filter (fun q => q.1 == k)) = [] := by
  induction store with
  | nil => rfl
  | cons hd tl ih =>
    by_cases h : hd.1 = k
    · simp [List.filter_cons, h, ih]
    · simp [List.filter_cons, h, ih]

/-- After a `set`, exactly one stored entry carries the key. -/
theorem kvStoreSet_self_count (store : KVStore) (k : String) (v : Resume) :
    ((kvStoreSet store k v).filter (fun q => q.1 == k)).length = 1 := by
  simp [kvStoreSet, List.filter_cons, filter_ne_then_eq]

/-- A `get` right after a `set` of the same key sees the set value. -/
theorem kvStoreGet_set_self (st : KVStore) (k : String) (v : Resume) :
    kvStoreGet (kvStoreSet st k v) k = some v := by
  simp [kvStoreGet, kvStoreSet, List.find?_cons]

/-- C1: for every submission input, when every remote call of the run
succeeds the pipeline emits the stage tokens in order and terminates in
`Complete` carrying the run's fresh id; exactly one Record is persisted
under that id, and `retrieve(id)` returns a Record whose feedback is the
parsed (non-empty) payload. -/
theorem submit_success_contract (env : PipelineEnv) (store : KVStore)
    (input : SubmitInput) (rawRef previewFile previewRef txt : String)
    (resp : AIResponse) (fb : Feedback)
    (h1 : env.fsUploadRes input.document = some rawRef)
    (h2 : env.convert input.document = some previewFile)
    (h3 : env.fsUploadRes previewFile = some previewRef)
    (h4 : env.kvSetOk = true)
    (h5 : env.aiFeedbackRes rawRef
      (env.render input.jobTitle input.jobDescription) = some resp)
    (h6 : extractText resp = some txt)
    (h7 : env.parseFeedback txt = some fb)
    (h8 : kvStoreGet store (resumeKey env.freshId) = none) :
    (runPipeline env store input).statuses =
      [Status.idle, Status.uploadingSource, Status.convertingPreview,
       Status.uploadingPreview, Status.persistingProvisional,
       Status.analyzing, Status.complete env.freshId] ∧
    (runPipeline env store input).final = Status.complete env.freshId ∧
    ((runPipeline env store input).store.filter
      (fun q => q.1 == resumeKey env.freshId)).length = 1 ∧
    ∃ r, retrieve (runPipeline env store input).store env.freshId = some r ∧
      r.feedback = some fb := by
  refine ⟨?_, ?_, ?_, ?_⟩
  · simp [runPipeline, h1, h2, h3, h4, h5, h6, h7]
  · simp [runPipeline, h1, h2, h3, h4, h5, h6, h7]
  · simp only [runPipeline, h1, h2, h3, h4, h5, h6, h7]
    simp only [Bool.true_eq_false, if_false]
    exact kvStoreSet_self_count _ _ _
  · simp only [runPipeline, h1, h2, h3, h4, h5, h6, h7]
    simp only [Bool.true_eq_false, if_false]
    exact ⟨_, kvStoreGet_set_self _ _ _, rfl⟩

/-- Witness for C1 at a concrete successful run: the status trace ends
in `Complete "id-1"` and the retrieved record carries the parsed
feedback. -/
theorem submit_success_contract_witness :
    (runPipeline witnessPipelineEnv []
      { companyName := "Acme", jobTitle := "Engineer"
        jobDescription := "Build things", document := "resume.pdf" }).final =
      Status.complete "id-1" ∧
    ∃ r, retrieve (runPipeline witnessPipelineEnv []
      { companyName := "Acme", jobTitle := "Engineer"
        jobDescription := "Build things", document := "resume.pdf" }).store
        "id-1" = some r ∧ r.feedback = some { raw := "parsed-feedback" } := by
  have h := submit_success_contract witnessPipelineEnv []
    { companyName := "Acme", jobTitle := "Engineer"
      jobDescription := "Build things", document := "resume.pdf" }
    "/files/resume.pdf" "preview.png" "/files/preview.png" "parsed-feedback"
    { content := Sum.inl "parsed-feedback" } { raw := "parsed-feedback" }
    rfl rfl rfl rfl rfl rfl rfl rfl
  exact ⟨h.2.1, h.2.2.2⟩

/-- Any state `setError` produces satisfies the invariant. -/
theorem setError_signed_out (s : StoreState) (msg : String) :
    errorImpliesSignedOut (setError s msg) :=
  fun _ => ⟨rfl, rfl⟩

/-- Every state `checkAuthStatus` leaves behind satisfies the
invariant, whatever the starting state. -/
theorem checkAuthStatus_inv (env : Option Puter) (s : StoreState) :
    errorImpliesSignedOut (checkAuthStatus env s).1 := by
  cases env with
  | none => exact fun _ => ⟨rfl, rfl⟩
  | some p =>
    cases hs : p.authIsSignedIn with
    | error e => intro _; simp [checkAuthStatus, hs, setError]
    | ok b =>
      cases b with
      | false =>
        intro hne; exact absurd (by simp [checkAuthStatus, hs]) hne
      | true =>
        cases hg : p.authGetUser with
        | error e => intro _; simp [checkAuthStatus, hs, hg, setError]
        | ok u =>
          intro hne; exact absurd (by simp [checkAuthStatus, hs, hg]) hne

/-- Every state `signIn` leaves behind satisfies the invariant. -/
theorem signIn_inv (env : Option Puter) (s : StoreState) :
    errorImpliesSignedOut (signIn env s) := by
  cases env with
  | none => exact fun _ => ⟨rfl, rfl⟩
  | some p =>
    cases hs : p.authSignIn with
    | error e => intro _; simp [signIn, hs, setError]
    | ok u =>
      have h := checkAuthStatus_inv (some p)
        { s with isLoading := true, error := none }
      simpa [signIn, hs] using h

/-- Every state `signOut` leaves behind satisfies the invariant. -/
theorem signOut_inv (env : Option Puter) (s : StoreState) :
    errorImpliesSignedOut (signOut env s) := by
  cases env with
  | none => exact fun _ => ⟨rfl, rfl⟩
  | some p =>
    cases hs : p.authSignOut with
    | error e => intro _; simp [signOut, hs, setError]
    | ok u => intro hne; exact absurd (by simp [signOut, hs]) hne

/-- Every state `refreshUser` leaves behind satisfies the invariant. -/
theorem refreshUser_inv (env : Option Puter) (s : StoreState) :
    errorImpliesSignedOut (refreshUser env s) := by
  cases env with
  | none => exact fun _ => ⟨rfl, rfl⟩
  | some p =>
    cases hg : p.authGetUser with
    | error e => intro _; simp [refreshUser, hg, setError]
    | ok u => intro hne; exact absurd (by simp [refreshUser, hg]) hne

/-- The facade operations without `try/catch` either leave the state
unchanged or run `setError`, so they preserve the invariant. -/
theorem write_inv (env : Option Puter) (s : StoreState) (path data : String)
    (ih : errorImpliesSignedOut s) :
    errorImpliesSignedOut (write env s path data).1 := by
  cases env with
  | none => exact setError_signed_out s _
  | some p => exact ih

/-- Invariant preservation for `readDir`. -/
theorem readDir_inv (env : Option Puter) (s : StoreState) (path : String)
    (ih : errorImpliesSignedOut s) :
    errorImpliesSignedOut (readDir env s path).1 := by
  cases env with
  | none => exact setError_signed_out s _
  | some p => exact ih

/-- Invariant preservation for `readFile`. -/
theorem readFile_inv (env : Option Puter) (s : StoreState) (path : String)
    (ih : errorImpliesSignedOut s) :
    errorImpliesSignedOut (readFile env s path).1 := by
  cases env with
  | none => exact setError_signed_out s _
  | some p => exact ih

/-- Invariant preservation for `upload`. -/
theorem upload_inv (env : Option Puter) (s : StoreState) (files : List String)
    (ih : errorImpliesSignedOut s) :
    errorImpliesSignedOut (upload env s files).1 := by
  cases env with
  | none => exact setError_signed_out s _
  | some p => exact ih

/-- Invariant preservation for `deleteFile`. -/
theorem deleteFile_inv (env : Option Puter) (s : StoreState) (path : String)
    (ih : errorImpliesSignedOut s) :
    errorImpliesSignedOut (deleteFile env s path).1 := by
  cases env with
  | none => exact setError_signed_out s _
  | some p => exact ih

/-- Invariant preservation for `chat`. -/
theorem chat_inv (env : Option Puter) (s : StoreState)
    (prompt : Sum String (List ChatMessage))
    (imageURL : Option (Sum String PuterChatOptions))
    (testMode : Option Bool) (options : Option PuterChatOptions)
    (ih : errorImpliesSignedOut s) :
    errorImpliesSignedOut (chat env s prompt imageURL testMode options).1 := by
  cases env with
  | none => exact setError_signed_out s _
  | some p => exact ih

/-- Invariant preservation for `feedback`. -/
theorem feedback_inv (env : Option Puter) (s : StoreState)
    (path message : String) (ih : errorImpliesSignedOut s) :
    errorImpliesSignedOut (feedback env s path message).1 := by
  cases env with
  | none => exact setError_signed_out s _
  | some p => exact ih

/-- Invariant preservation for `img2txt`. -/
theorem img2txt_inv (env : Option Puter) (s : StoreState) (image : String)
    (testMode : Option Bool) (ih : errorImpliesSignedOut s) :
    errorImpliesSignedOut (img2txt env s image testMode).1 := by
  cases env with
  | none => exact setError_signed_out s _
  | some p => exact ih

/-- Invariant preservation for `getKV`. -/
theorem getKV_inv (env : Option Puter) (s : StoreState) (key : String)
    (ih : errorImpliesSignedOut s) :
    errorImpliesSignedOut (getKV env s key).1 := by
  cases env with
  | none => exact setError_signed_out s _
  | some p => exact ih

/-- Invariant preservation for `setKV`. -/
theorem setKV_inv (env : Option Puter) (s : StoreState) (key value : String)
    (ih : errorImpliesSignedOut s) :
    errorImpliesSignedOut (setKV env s key value).1 := by
  cases env with
  | none => exact setError_signed_out s _
  | some p => exact ih

/-- Invariant preservation for `deleteKV`. -/
theorem deleteKV_inv (env : Option Puter) (s : StoreState) (key : String)
    (ih : errorImpliesSignedOut s) :
    errorImpliesSignedOut (deleteKV env s key).1 := by
  cases env with
  | none => exact setError_signed_out s _
  | some p => exact ih

/-- Invariant preservation for `listKV`. -/
theorem listKV_inv (env : Option Puter) (s : StoreState) (pat : String)
    (returnValues : Option Bool) (ih : errorImpliesSignedOut s) :
    errorImpliesSignedOut (listKV env s pat returnValues).1 := by
  cases env with
  | none => exact setError_signed_out s _
  | some p => exact ih

/-- Invariant preservation for `flushKV`. -/
theorem flushKV_inv (env : Option Puter) (s : StoreState)
    (ih : errorImpliesSignedOut s) :
    errorImpliesSignedOut (flushKV env s).1 := by
  cases env with
  | none => exact setError_signed_out s _
  | some p => exact ih

/-- The invariant is inductive: it holds of the initial store state and
is preserved by every complete facade operation. -/
theorem reachable_error_signed_out (s : StoreState) (hs : Reachable s) :
    errorImpliesSignedOut s := by
  induction hs with
  | start => intro h; exact absurd rfl h
  | trans hr hstep ih =>
    cases hstep <;>
      first
      | exact checkAuthStatus_inv _ _
      | exact signIn_inv _ _
      | exact signOut_inv _ _
      | exact refreshUser_inv _ _
      | exact setError_signed_out _ _
      | (intro h; exact absurd rfl h)
      | exact write_inv _ _ _ _ ih
      | exact readDir_inv _ _ _ ih
      | exact readFile_inv _ _ _ ih
      | exact upload_inv _ _ _ ih
      | exact deleteFile_inv _ _ _ ih
      | exact chat_inv _ _ _ _ _ _ ih
      | exact feedback_inv _ _ _ _ ih
      | exact img2txt_inv _ _ _ _ ih
      | exact getKV_inv _ _ _ ih
      | exact setKV_inv _ _ _ _ ih
      | exact deleteKV_inv _ _ _ ih
      | exact listKV_inv _ _ _ _ ih
      | exact flushKV_inv _ _ ih
      | exact ih

/-- C10 (amended): every `setError` invocation leaves the message
recorded, the in-flight flag false and the session signed-out; the
derived global invariant — a non-null error implies a signed-out
session — holds of every store state reachable through facade
operations that run to completion without interleaving.  (Under
interleaving at `await` suspension points the invariant can fail; see
the counterexample over `FineReachable`.) -/
theorem shared_error_reset_invariant (s0 : StoreState) (msg : String)
    (s : StoreState) (hs : Reachable s) :
    ((setError s0 msg).error = some msg ∧
     (setError s0 msg).isLoading = false ∧
     (setError s0 msg).auth.user = none ∧
     (setError s0 msg).auth.isAuthenticated = false) ∧
    (s.error ≠ none → s.auth.user = none ∧ s.auth.isAuthenticated = false) :=
  ⟨⟨rfl, rfl, rfl, rfl⟩, reachable_error_signed_out s hs⟩

/-- Witness for C10: the state reached by one `setError` from the
initial state is reachable, holds the message and is signed-out. -/
theorem shared_error_reset_invariant_witness :
    (setError initialState "boom").error = some "boom" ∧
    (setError initialState "boom").auth.user = none ∧
    (setError initialState "boom").auth.isAuthenticated = false := by
  have h := shared_error_reset_invariant initialState "boom"
    (setError initialState "boom")
    (Reachable.trans Reachable.start (Step.ofSetError initialState "boom"))
  exact ⟨h.1.1, (h.2 (by simp [setError])).1, (h.2 (by simp [setError])).2⟩

/-- C10 counterexample: the global invariant fails on an interleaved
schedule the event loop permits.  Concretely: with the platform present,
`checkAuthStatus` begins and performs its start write
`set({isLoading: true, error: null})`, then suspends awaiting
`puter.auth.getUser()`; during that await the rejection handler of a
previously dispatched `signOut` runs `setError('Sign out failed')`;
`checkAuthStatus` then resumes and performs its signed-in write, which
sets the session signed-in and `isLoading` false but does not touch
`error`.  The resulting store state is reachable, holds a non-null
error and a signed-in session. -/
theorem error_signed_in_interleaving_counterexample :
    FineReachable
      { isLoading := false, error := some "Sign out failed"
        puterReady := false
        auth := { user := some okUser, isAuthenticated := true } } ∧
    (some "Sign out failed" : Option String) ≠ none ∧
    ({ user := some okUser, isAuthenticated := true } : AuthState).isAuthenticated
      = true := by
  refine ⟨?_, by simp, rfl⟩
  have h1 : FineReachable { initialState with isLoading := true, error := none } :=
    FineReachable.trans FineReachable.start (FineStep.ofOpStart initialState)
  have h2 : FineReachable (setError
      { initialState with isLoading := true, error := none }
      "Sign out failed") :=
    FineReachable.trans h1 (FineStep.ofSetError _ "Sign out failed")
  exact FineReachable.trans h2 (FineStep.ofSignedInWrite _ okUser)
